import Mathlib

/-!
Shallow embedding of src/server.py (Landing Page Builder local dev server).

We embed the CORS middleware (end_headers / do_OPTIONS), the POST dispatch
(do_POST), and the two proxy handlers proxy_claude and proxy_gemini, together
with the parts of the Python runtime semantics they rely on: dict.get, int(),
subscripting, slicing, json.dumps, bytes.decode with utf-8, and the header
validation http.client performs inside urllib.request.urlopen.  The upstream
network is an oracle mapping an outbound request to its outcome; static file
serving (an external collaborator per the spec) is a second oracle whose
response is emitted through the same overridden end_headers.
-/

namespace Server

/-- Python values as produced by json.loads (JSON-derived data only: null,
booleans, numbers, strings, lists, string-keyed dicts).  JSON floats are
collapsed to integers; no claim depends on numeric values.  Parsed JSON
objects have unique keys, so first-match lookup models dict access. -/
inductive PyVal where
  | none
  | bool (b : Bool)
  | int (n : Int)
  | str (s : String)
  | list (xs : List PyVal)
  | dict (kvs : List (String × PyVal))

/-- Python type name of a value, used in error messages. -/
def pyTypeName : PyVal → String
  | PyVal.none => "NoneType"
  | PyVal.bool _ => "bool"
  | PyVal.int _ => "int"
  | PyVal.str _ => "str"
  | PyVal.list _ => "list"
  | PyVal.dict _ => "dict"

/-- Python truthiness of a JSON-derived value (never raises). -/
def truthy : PyVal → Bool
  | PyVal.none => false
  | PyVal.bool b => b
  | PyVal.int n => n ≠ 0
  | PyVal.str s => s ≠ ""
  | PyVal.list xs => ¬ xs.isEmpty
  | PyVal.dict kvs => ¬ kvs.isEmpty

/-- Python exceptions that can arise in the handlers.  The message strings
approximate CPython texts (quotes elided); no claim depends on their exact
wording.  httpError and urlError mirror urllib.error.HTTPError and
urllib.error.URLError, which the handlers dispatch on by class. -/
inductive PyErr where
  | attributeError (msg : String)
  | typeError (msg : String)
  | valueError (msg : String)
  | indexError (msg : String)
  | keyError (msg : String)
  | unicodeDecodeError (msg : String)
  | jsonDecodeError (msg : String)
  | httpError (code : Nat) (body : List Nat)
  | urlError (reason : String)

/-- Python str(e) for the exceptions above, as interpolated into the local
500 error body json.dumps on the generic except paths. -/
def pyStr : PyErr → String
  | PyErr.attributeError m => m
  | PyErr.typeError m => m
  | PyErr.valueError m => m
  | PyErr.indexError m => m
  | PyErr.keyError m => m
  | PyErr.unicodeDecodeError m => m
  | PyErr.jsonDecodeError m => m
  | PyErr.httpError c _ => "HTTP Error " ++ toString c
  | PyErr.urlError r => "<urlopen error " ++ r ++ ">"

/-- Python dict.get with default None: server.py request_data.get and
body.get calls.  AttributeError on any non-dict receiver. -/
def pyGet : PyVal → String → Except PyErr PyVal
  | PyVal.dict kvs, k => Except.ok ((kvs.lookup k).getD PyVal.none)
  | v, _ => Except.error (PyErr.attributeError (pyTypeName v ++ " object has no attribute get"))

/-- Python dict.get with an explicit default, as in the gemini prompt
preview chain. -/
def pyGetD : PyVal → String → PyVal → Except PyErr PyVal
  | PyVal.dict kvs, k, d => Except.ok ((kvs.lookup k).getD d)
  | v, _, _ => Except.error (PyErr.attributeError (pyTypeName v ++ " object has no attribute get"))

/-- Python v[0] on a JSON-derived value: list/str index, KeyError on a
string-keyed dict, TypeError otherwise. -/
def pyIndex0 : PyVal → Except PyErr PyVal
  | PyVal.list [] => Except.error (PyErr.indexError "list index out of range")
  | PyVal.list (x :: _) => Except.ok x
  | PyVal.str s =>
    match s.data with
    | [] => Except.error (PyErr.indexError "string index out of range")
    | c :: _ => Except.ok (PyVal.str (String.singleton c))
  | PyVal.dict _ => Except.error (PyErr.keyError "0")
  | v => Except.error (PyErr.typeError (pyTypeName v ++ " object is not subscriptable"))

/-- Whether Python v[:n] slicing succeeds: only str and list slice. -/
def pySliceOk : PyVal → Bool
  | PyVal.str _ => true
  | PyVal.list _ => true
  | _ => false

/-- Characters Python int() strips around a numeral: the latin-1
representable members of Unicode whitespace. -/
def pyWs (c : Char) : Bool :=
  c = ' ' || c = '\t' || c = '\n' || c = '\r' || c = '\x0b' || c = '\x0c' ||
  c = '\x1c' || c = '\x1d' || c = '\x1e' || c = '\x1f' || c = '\x85' || c = '\xa0'

def isDigitC (c : Char) : Bool := '0' ≤ c && c ≤ '9'

/-- Continuation of a digit run: Python int() allows single underscores
between digits. -/
def digitsRest : List Char → Bool
  | [] => true
  | '_' :: c :: r => isDigitC c && digitsRest r
  | c :: r => isDigitC c && digitsRest r

/-- A nonempty digit run with optional single underscores between digits. -/
def digitsBody : List Char → Bool
  | [] => false
  | c :: r => isDigitC c && digitsRest r

def stripWs (l : List Char) : List Char :=
  ((l.dropWhile pyWs).reverse.dropWhile pyWs).reverse

/-- Whether Python int(s) succeeds in base 10 for a latin-1 header string:
optional whitespace, optional sign, digits with underscores. -/
def isValidIntLiteral (s : String) : Bool :=
  match stripWs s.data with
  | '-' :: r => digitsBody r
  | '+' :: r => digitsBody r
  | l => digitsBody l

def digitVal (c : Char) : Nat := c.toNat - '0'.toNat

def digitsVal (acc : Nat) : List Char → Nat
  | [] => acc
  | '_' :: r => digitsVal acc r
  | c :: r => digitsVal (acc * 10 + digitVal c) r

/-- Value of a valid Python int literal. -/
def parseIntLit (s : String) : Int :=
  match stripWs s.data with
  | '-' :: r => - (digitsVal 0 r : Int)
  | '+' :: r => (digitsVal 0 r : Int)
  | l => (digitsVal 0 l : Int)

def intNoneMsg : String :=
  "int() argument must be a string, a bytes-like object or a real number, not NoneType"

def invalidLitMsg (s : String) : String :=
  "invalid literal for int() with base 10: " ++ s

/-- Python int of the Content-Length header at server.py lines 53 and 160:
the email.message mapping yields None for a missing header, so int(None)
raises TypeError; a non-numeral raises ValueError. -/
def pyInt : Option String → Except PyErr Int
  | Option.none => Except.error (PyErr.typeError intNoneMsg)
  | Option.some s =>
    if isValidIntLiteral s then Except.ok (parseIntLit s)
    else Except.error (PyErr.valueError (invalidLitMsg s))

/-- Whether a continuation byte of a UTF-8 sequence is in range. -/
def isCont (b : Nat) : Bool := 0x80 ≤ b && b ≤ 0xBF

/-- Strict UTF-8 validity of a byte sequence, as checked by Python
bytes.decode with utf-8: rejects overlong forms, surrogates and code points
above U+10FFFF.  The handlers decode upstream payloads only for diagnostics,
and the decode raises UnicodeDecodeError exactly when this is false. -/
def utf8Valid : List Nat → Bool
  | [] => true
  | b :: rest =>
    if b ≤ 0x7F then utf8Valid rest
    else if 0xC2 ≤ b && b ≤ 0xDF then
      match rest with
      | c :: r => isCont c && utf8Valid r
      | [] => false
    else if b = 0xE0 then
      match rest with
      | c1 :: c2 :: r => (0xA0 ≤ c1 && c1 ≤ 0xBF) && isCont c2 && utf8Valid r
      | _ => false
    else if b = 0xED then
      match rest with
      | c1 :: c2 :: r => (0x80 ≤ c1 && c1 ≤ 0x9F) && isCont c2 && utf8Valid r
      | _ => false
    else if 0xE1 ≤ b && b ≤ 0xEF then
      match rest with
      | c1 :: c2 :: r => isCont c1 && isCont c2 && utf8Valid r
      | _ => false
    else if b = 0xF0 then
      match rest with
      | c1 :: c2 :: c3 :: r => (0x90 ≤ c1 && c1 ≤ 0xBF) && isCont c2 && isCont c3 && utf8Valid r
      | _ => false
    else if 0xF1 ≤ b && b ≤ 0xF3 then
      match rest with
      | c1 :: c2 :: c3 :: r => isCont c1 && isCont c2 && isCont c3 && utf8Valid r
      | _ => false
    else if b = 0xF4 then
      match rest with
      | c1 :: c2 :: c3 :: r => (0x80 ≤ c1 && c1 ≤ 0x8F) && isCont c2 && isCont c3 && utf8Valid r
      | _ => false
    else false

/-- Escaping of a JSON string literal body as json.dumps performs it.
Control-character and non-ascii escapes are elided: no claim touches them. -/
def jsonEscape (s : String) : String :=
  s.data.foldl
    (fun acc c =>
      if c = '\"' then acc ++ "\\\""
      else if c = '\\' then acc ++ "\\\\"
      else acc.push c) ""

mutual

/-- Python json.dumps with default separators, as used for the outbound
payload and the locally synthesized error bodies. -/
def dumps : PyVal → String
  | PyVal.none => "null"
  | PyVal.bool true => "true"
  | PyVal.bool false => "false"
  | PyVal.int n => toString n
  | PyVal.str s => "\"" ++ jsonEscape s ++ "\""
  | PyVal.list xs => "[" ++ dumpsList xs ++ "]"
  | PyVal.dict kvs => "\x7b" ++ dumpsDict kvs ++ "\x7d"

def dumpsList : List PyVal → String
  | [] => ""
  | [x] => dumps x
  | x :: xs => dumps x ++ ", " ++ dumpsList xs

def dumpsDict : List (String × PyVal) → String
  | [] => ""
  | [(k, v)] => "\"" ++ jsonEscape k ++ "\": " ++ dumps v
  | (k, v) :: kvs => "\"" ++ jsonEscape k ++ "\": " ++ dumps v ++ ", " ++ dumpsDict kvs

end

/-- The Python object json.dumps serializes on the local error paths:
a dict error -> dict message -> str msg, from server.py lines 150, 220, 228. -/
def errObj (msg : String) : PyVal :=
  PyVal.dict [("error", PyVal.dict [("message", PyVal.str msg)])]

/-- The HTTP methods the handler class dispatches on (do_GET is inherited
static serving, do_POST and do_OPTIONS are defined in server.py). -/
inductive Method where
  | GET
  | POST
  | OPTIONS
deriving DecidableEq

/-- Outcome of post_data.decode followed by json.loads on the inbound
body (server.py lines 55 and 162): either the parsed value or the raised
decode or JSONDecodeError message.  The read itself is abstracted: the
Content-Length value only selects how many bytes feed this parse. -/
inductive LoadOutcome where
  | ok (v : PyVal)
  | err (msg : String)

/-- An inbound HTTP request as the handler observes it. -/
structure Inbound where
  method : Method
  path : String
  contentLength : Option String
  payload : LoadOutcome

/-- A response body: raw bytes forwarded from upstream, or locally
synthesized JSON text (whose wire form is its UTF-8 encoding). -/
inductive Payload where
  | bytes (bs : List Nat)
  | text (s : String)
deriving DecidableEq

/-- An outbound HTTP response: status line, headers in emission order,
optional body.  The Server and Date headers BaseHTTPRequestHandler adds on
every send_response are library boilerplate and are elided. -/
structure Response where
  status : Nat
  headers : List (String × String)
  body : Option Payload
deriving DecidableEq

/-- An outbound upstream request as urllib.request.Request is constructed:
url, json.dumps serialized payload, header mapping whose values are Python
objects (the envelope apiKey is passed through unchecked), and the urlopen
timeout argument (none models the unbounded default). -/
structure OutboundRequest where
  url : String
  data : String
  headers : List (String × PyVal)
  timeout : Option Nat

/-- Observable outcome of one urlopen attempt: a 2xx success carrying the
upstream status, Content-Type and payload bytes; an HTTPError carrying the
non-2xx status and error body bytes; or a URLError network failure
(timeout, DNS failure, connection reset) carrying its reason. -/
inductive UpstreamOutcome where
  | success (status : Nat) (contentType : String) (body : List Nat)
  | httpError (code : Nat) (body : List Nat)
  | netError (reason : String)

/-- The network environment: what one urlopen attempt of a given request
would observe. -/
def Oracle := OutboundRequest → UpstreamOutcome

/-- A response as status, extra handler-chosen headers and body, before
end_headers appends the CORS and cache headers. -/
def RespTriple := Nat × List (String × String) × Option Payload

/-- The static file serving collaborator.  Modelled from the spec: the
inherited SimpleHTTPRequestHandler do_GET is an external collaborator not
under src/; it maps a path to a status, extra headers and body, all emitted
through the same overridden end_headers. -/
def StaticOracle := String → RespTriple

/-- The four headers the overridden end_headers adds to every response
(server.py lines 25 to 31), in emission order. -/
def corsHeaders : List (String × String) :=
  [("Access-Control-Allow-Origin", "*"),
   ("Access-Control-Allow-Methods", "GET, POST, OPTIONS"),
   ("Access-Control-Allow-Headers", "Content-Type, x-api-key, x-goog-api-key"),
   ("Cache-Control", "no-store, no-cache, must-revalidate")]

/-- Assembling one outbound response: the handler-sent headers followed by
the end_headers CORS and cache headers. -/
def mkResponse (status : Nat) (extra : List (String × String)) (body : Option Payload) : Response :=
  { status := status, headers := extra ++ corsHeaders, body := body }

def mkResponseT (t : RespTriple) : Response :=
  mkResponse t.1 t.2.1 t.2.2

/-- Result of one handled request: the response written to the caller
(none when the handler thread dies and the connection is closed with no
response), and the outbound upstream attempts issued. -/
structure HandlerResult where
  response : Option Response
  calls : List OutboundRequest

def finish (r : Option RespTriple × List OutboundRequest) : HandlerResult :=
  { response := r.1.map mkResponseT, calls := r.2 }

/-- Whether http.client putheader accepts a header value: str and int (and
bool, an int subclass) are sent; None or any other object makes the illegal
value check raise TypeError before any bytes reach the network.  Embedded
CR or LF rejection is elided: no claim involves such values. -/
def headerValOk : PyVal → Bool
  | PyVal.str _ => true
  | PyVal.int _ => true
  | PyVal.bool _ => true
  | _ => false

def sendableHeaders (hs : List (String × PyVal)) : Bool :=
  hs.all fun h => headerValOk h.2

/-- One urllib.request.urlopen attempt: header validation inside
http.client first (raising TypeError with no network attempt issued),
then the network outcome, recording the single attempt issued. -/
def urlopenM (oracle : Oracle) (req : OutboundRequest) :
    Except PyErr (Nat × String × List Nat) × List OutboundRequest :=
  if sendableHeaders req.headers then
    match oracle req with
    | UpstreamOutcome.success st ct b => (Except.ok (st, ct, b), [req])
    | UpstreamOutcome.httpError c b => (Except.error (PyErr.httpError c b), [req])
    | UpstreamOutcome.netError r => (Except.error (PyErr.urlError r), [req])
  else (Except.error (PyErr.typeError "expected string or bytes-like object"), [])

/-- The claude endpoint URL (server.py line 74). -/
def claudeURL : String := "https://api.anthropic.com/v1/messages"

/-- The gemini endpoint URL (server.py line 178). -/
def geminiURL : String :=
  "https://generativelanguage.googleapis.com/v1beta/models/gemini-2.5-flash-image-preview:generateContent"

/-- The outbound claude request (server.py lines 73 to 83): fixed headers
plus the x-api-key envelope value, json.dumps payload, no timeout argument
so the unbounded default applies. -/
def claudeReq (api_key body : PyVal) : OutboundRequest :=
  { url := claudeURL
    data := dumps body
    headers := [("Content-Type", PyVal.str "application/json"),
                ("x-api-key", api_key),
                ("anthropic-version", PyVal.str "2023-06-01")]
    timeout := Option.none }

/-- The outbound gemini request (server.py lines 181 to 191): fixed
Content-Type plus the x-goog-api-key envelope value, and timeout 60. -/
def geminiReq (api_key body : PyVal) : OutboundRequest :=
  { url := geminiURL
    data := dumps body
    headers := [("Content-Type", PyVal.str "application/json"),
                ("x-goog-api-key", api_key)]
    timeout := Option.some 60 }

/-- The request-side diagnostic block of proxy_claude (server.py lines 62
to 70): three body.get calls, then a slice of the api key when it is
truthy.  Each step raises when the receiver has the wrong Python type, and
the block is not guarded by any inner try. -/
def claudeLog (api_key body : PyVal) : Except PyErr Unit :=
  match pyGet body "model" with
  | Except.error e => Except.error e
  | Except.ok _ =>
  match pyGet body "max_tokens" with
  | Except.error e => Except.error e
  | Except.ok _ =>
  match pyGet body "temperature" with
  | Except.error e => Except.error e
  | Except.ok _ =>
  if truthy api_key then
    if pySliceOk api_key then Except.ok () else
      Except.error (PyErr.typeError (pyTypeName api_key ++ " object is not subscriptable"))
  else Except.ok ()

/-- The request-side diagnostic block of proxy_gemini (server.py lines 169
to 174): the nested prompt preview chain with defaults, then a slice of
the extracted prompt text.  Unguarded, like the claude block. -/
def geminiLog (body : PyVal) : Except PyErr Unit :=
  match pyGetD body "contents" (PyVal.list [PyVal.dict []]) with
  | Except.error e => Except.error e
  | Except.ok contents =>
  match pyIndex0 contents with
  | Except.error e => Except.error e
  | Except.ok c0 =>
  match pyGetD c0 "parts" (PyVal.list [PyVal.dict []]) with
  | Except.error e => Except.error e
  | Except.ok parts =>
  match pyIndex0 parts with
  | Except.error e => Except.error e
  | Except.ok p0 =>
  match pyGetD p0 "text" (PyVal.str "N/A") with
  | Except.error e => Except.error e
  | Except.ok t =>
  if pySliceOk t then Except.ok () else
    Except.error (PyErr.typeError (pyTypeName t ++ " object is not subscriptable"))

/-- The claude upstream call and success send (server.py lines 83 to 126):
urlopen, then response_data.decode for the diagnostic preview (raising on
non-UTF-8 bytes), then send_response 200 with a hardcoded Content-Type of
application/json and Content-Length, and the raw payload bytes.  The
markdown inspection of the decoded text (lines 100 to 117) sits partly
inside its own try and raises nothing once the decode has succeeded. -/
def claudeCall (oracle : Oracle) (api_key body : PyVal) :
    Except PyErr RespTriple × List OutboundRequest :=
  match urlopenM oracle (claudeReq api_key body) with
  | (Except.error e, calls) => (Except.error e, calls)
  | (Except.ok (_st, _ct, b), calls) =>
    if utf8Valid b then
      (Except.ok (200,
        [("Content-Type", "application/json"), ("Content-Length", toString b.length)],
        Option.some (Payload.bytes b)), calls)
    else (Except.error (PyErr.unicodeDecodeError "utf-8 codec cannot decode byte"), calls)

/-- proxy_claude after the envelope has parsed: extract apiKey and body via
dict.get, run the unguarded request log, then the upstream call. -/
def claudeAfterParse (oracle : Oracle) (request_data : PyVal) :
    Except PyErr RespTriple × List OutboundRequest :=
  match pyGet request_data "apiKey" with
  | Except.error e => (Except.error e, [])
  | Except.ok api_key =>
  match pyGet request_data "body" with
  | Except.error e => (Except.error e, [])
  | Except.ok body =>
  match claudeLog api_key body with
  | Except.error e => (Except.error e, [])
  | Except.ok _ => claudeCall oracle api_key body

/-- The try block of proxy_claude (server.py lines 51 to 126). -/
def claudeTry (oracle : Oracle) (inb : Inbound) :
    Except PyErr RespTriple × List OutboundRequest :=
  match pyInt inb.contentLength with
  | Except.error e => (Except.error e, [])
  | Except.ok _ =>
  match inb.payload with
  | LoadOutcome.err m => (Except.error (PyErr.jsonDecodeError m), [])
  | LoadOutcome.ok request_data => claudeAfterParse oracle request_data

/-- proxy_claude with its except clauses (server.py lines 128 to 151).
The HTTPError branch decodes the error body for logging before forwarding;
a non-UTF-8 error body makes that decode raise inside the except block,
which no later clause catches, so the connection dies with no response.
Every other exception reaches the generic clause: send_response 500 with a
json.dumps error object. -/
def claudeRaw (oracle : Oracle) (inb : Inbound) :
    Option RespTriple × List OutboundRequest :=
  match claudeTry oracle inb with
  | (Except.ok t, calls) => (Option.some t, calls)
  | (Except.error (PyErr.httpError c b), calls) =>
    if utf8Valid b then
      (Option.some (c,
        [("Content-Type", "application/json"), ("Content-Length", toString b.length)],
        Option.some (Payload.bytes b)), calls)
    else (Option.none, calls)
  | (Except.error e, calls) =>
    (Option.some (500, [("Content-Type", "application/json")],
      Option.some (Payload.text (dumps (errObj (pyStr e))))), calls)

def proxy_claude (oracle : Oracle) (inb : Inbound) : HandlerResult :=
  finish (claudeRaw oracle inb)

/-- The gemini upstream call and success send (server.py lines 190 to
202): urlopen with timeout 60, then send_response 200 with a hardcoded
Content-Type and the raw payload bytes.  No decode happens on this path,
so any byte sequence is forwarded. -/
def geminiCall (oracle : Oracle) (api_key body : PyVal) :
    Except PyErr RespTriple × List OutboundRequest :=
  match urlopenM oracle (geminiReq api_key body) with
  | (Except.error e, calls) => (Except.error e, calls)
  | (Except.ok (_st, _ct, b), calls) =>
    (Except.ok (200, [("Content-Type", "application/json")],
      Option.some (Payload.bytes b)), calls)

def geminiAfterParse (oracle : Oracle) (request_data : PyVal) :
    Except PyErr RespTriple × List OutboundRequest :=
  match pyGet request_data "apiKey" with
  | Except.error e => (Except.error e, [])
  | Except.ok api_key =>
  match pyGet request_data "body" with
  | Except.error e => (Except.error e, [])
  | Except.ok body =>
  match geminiLog body with
  | Except.error e => (Except.error e, [])
  | Except.ok _ => geminiCall oracle api_key body

/-- The try block of proxy_gemini (server.py lines 158 to 202). -/
def geminiTry (oracle : Oracle) (inb : Inbound) :
    Except PyErr RespTriple × List OutboundRequest :=
  match pyInt inb.contentLength with
  | Except.error e => (Except.error e, [])
  | Except.ok _ =>
  match inb.payload with
  | LoadOutcome.err m => (Except.error (PyErr.jsonDecodeError m), [])
  | LoadOutcome.ok request_data => geminiAfterParse oracle request_data

/-- proxy_gemini with its except clauses (server.py lines 204 to 229):
HTTPError forwarded after a diagnostic decode of the error body (non-UTF-8
kills the connection as in proxy_claude), URLError mapped to a local 500
with a Network error message, anything else to a local 500 with str(e). -/
def geminiRaw (oracle : Oracle) (inb : Inbound) :
    Option RespTriple × List OutboundRequest :=
  match geminiTry oracle inb with
  | (Except.ok t, calls) => (Option.some t, calls)
  | (Except.error (PyErr.httpError c b), calls) =>
    if utf8Valid b then
      (Option.some (c, [("Content-Type", "application/json")],
        Option.some (Payload.bytes b)), calls)
    else (Option.none, calls)
  | (Except.error (PyErr.urlError r), calls) =>
    (Option.some (500, [("Content-Type", "application/json")],
      Option.some (Payload.text (dumps (errObj ("Network error: " ++ r))))), calls)
  | (Except.error e, calls) =>
    (Option.some (500, [("Content-Type", "application/json")],
      Option.some (Payload.text (dumps (errObj (pyStr e))))), calls)

def proxy_gemini (oracle : Oracle) (inb : Inbound) : HandlerResult :=
  finish (geminiRaw oracle inb)

/-- The dispatch of MyHTTPRequestHandler: do_OPTIONS answers 200 with no
extra headers and no body on any path before any routing (lines 33 to 36);
do_POST routes the two exact proxy paths and otherwise falls through to
the inherited class, which defines no do_POST, so the AttributeError kills
the connection with no response (lines 38 to 45); GET is the static
collaborator. -/
def handleRaw (oracle : Oracle) (staticO : StaticOracle) (inb : Inbound) :
    Option RespTriple × List OutboundRequest :=
  match inb.method with
  | Method.OPTIONS => (Option.some (200, [], Option.none), [])
  | Method.GET => (Option.some (staticO inb.path), [])
  | Method.POST =>
    if inb.path = "/api/claude" then claudeRaw oracle inb
    else if inb.path = "/api/gemini" then geminiRaw oracle inb
    else (Option.none, [])

def handle (oracle : Oracle) (staticO : StaticOracle) (inb : Inbound) : HandlerResult :=
  finish (handleRaw oracle staticO inb)

/-- The locally synthesized 500 response of the generic except clauses:
Content-Type application/json, no Content-Length, json.dumps error body. -/
def localError500 (msg : String) : Response :=
  mkResponse 500 [("Content-Type", "application/json")]
    (Option.some (Payload.text (dumps (errObj msg))))

/-- proxy_claude with every diagnostic step removed, as the baseline the
spec measures logging transparency against: no request-parameter log, no
decode of the success payload, no decode of the HTTPError body.  The
functional steps (read, parse, extract, request, forward) are identical to
claudeTry and claudeRaw. -/
def claudeCallNoLog (oracle : Oracle) (api_key body : PyVal) :
    Except PyErr RespTriple × List OutboundRequest :=
  match urlopenM oracle (claudeReq api_key body) with
  | (Except.error e, calls) => (Except.error e, calls)
  | (Except.ok (_st, _ct, b), calls) =>
    (Except.ok (200,
      [("Content-Type", "application/json"), ("Content-Length", toString b.length)],
      Option.some (Payload.bytes b)), calls)

def claudeAfterParseNoLog (oracle : Oracle) (request_data : PyVal) :
    Except PyErr RespTriple × List OutboundRequest :=
  match pyGet request_data "apiKey" with
  | Except.error e => (Except.error e, [])
  | Except.ok api_key =>
  match pyGet request_data "body" with
  | Except.error e => (Except.error e, [])
  | Except.ok body => claudeCallNoLog oracle api_key body

def claudeTryNoLog (oracle : Oracle) (inb : Inbound) :
    Except PyErr RespTriple × List OutboundRequest :=
  match pyInt inb.contentLength with
  | Except.error e => (Except.error e, [])
  | Except.ok _ =>
  match inb.payload with
  | LoadOutcome.err m => (Except.error (PyErr.jsonDecodeError m), [])
  | LoadOutcome.ok request_data => claudeAfterParseNoLog oracle request_data

def claudeRawNoLog (oracle : Oracle) (inb : Inbound) :
    Option RespTriple × List OutboundRequest :=
  match claudeTryNoLog oracle inb with
  | (Except.ok t, calls) => (Option.some t, calls)
  | (Except.error (PyErr.httpError c b), calls) =>
    (Option.some (c,
      [("Content-Type", "application/json"), ("Content-Length", toString b.length)],
      Option.some (Payload.bytes b)), calls)
  | (Except.error e, calls) =>
    (Option.some (500, [("Content-Type", "application/json")],
      Option.some (Payload.text (dumps (errObj (pyStr e))))), calls)

def proxy_claude_noLog (oracle : Oracle) (inb : Inbound) : HandlerResult :=
  finish (claudeRawNoLog oracle inb)

/-- proxy_gemini with every diagnostic step removed, the baseline for
logging transparency on the gemini path: no prompt-preview chain and no
decode of the HTTPError body.  The success-path diagnostics of the source
(prints of elapsed time and byte count, lines 195 to 197) cannot raise, so
the call step itself is geminiCall unchanged; the URLError and generic
clauses are functional error handling, not logging, and stay. -/
def geminiAfterParseNoLog (oracle : Oracle) (request_data : PyVal) :
    Except PyErr RespTriple × List OutboundRequest :=
  match pyGet request_data "apiKey" with
  | Except.error e => (Except.error e, [])
  | Except.ok api_key =>
  match pyGet request_data "body" with
  | Except.error e => (Except.error e, [])
  | Except.ok body => geminiCall oracle api_key body

def geminiTryNoLog (oracle : Oracle) (inb : Inbound) :
    Except PyErr RespTriple × List OutboundRequest :=
  match pyInt inb.contentLength with
  | Except.error e => (Except.error e, [])
  | Except.ok _ =>
  match inb.payload with
  | LoadOutcome.err m => (Except.error (PyErr.jsonDecodeError m), [])
  | LoadOutcome.ok request_data => geminiAfterParseNoLog oracle request_data

def geminiRawNoLog (oracle : Oracle) (inb : Inbound) :
    Option RespTriple × List OutboundRequest :=
  match geminiTryNoLog oracle inb with
  | (Except.ok t, calls) => (Option.some t, calls)
  | (Except.error (PyErr.httpError c b), calls) =>
    (Option.some (c, [("Content-Type", "application/json")],
      Option.some (Payload.bytes b)), calls)
  | (Except.error (PyErr.urlError r), calls) =>
    (Option.some (500, [("Content-Type", "application/json")],
      Option.some (Payload.text (dumps (errObj ("Network error: " ++ r))))), calls)
  | (Except.error e, calls) =>
    (Option.some (500, [("Content-Type", "application/json")],
      Option.some (Payload.text (dumps (errObj (pyStr e))))), calls)

def proxy_gemini_noLog (oracle : Oracle) (inb : Inbound) : HandlerResult :=
  finish (geminiRawNoLog oracle inb)

/-- The envelope the handler would extract from an inbound request when the
Content-Length parses, the payload parses, and both dict.get calls
succeed. -/
def envelopeOf (inb : Inbound) : Option (PyVal × PyVal) :=
  match pyInt inb.contentLength with
  | Except.error _ => Option.none
  | Except.ok _ =>
  match inb.payload with
  | LoadOutcome.err _ => Option.none
  | LoadOutcome.ok rd =>
  match pyGet rd "apiKey", pyGet rd "body" with
  | Except.ok k, Except.ok b => Option.some (k, b)
  | _, _ => Option.none

/-- The inbound envelope JSON object with both fields present. -/
def envDict (key : String) (bod : PyVal) : PyVal :=
  PyVal.dict [("apiKey", PyVal.str key), ("body", bod)]

def mkPost (p : String) (cl : Option String) (pl : LoadOutcome) : Inbound :=
  { method := Method.POST, path := p, contentLength := cl, payload := pl }

/-- Exceptions the except clauses map to the generic local 500: everything
except the specially dispatched HTTPError and URLError classes. -/
def isLocalErr : PyErr → Bool
  | PyErr.httpError _ _ => false
  | PyErr.urlError _ => false
  | _ => true

/-- A network oracle for concrete checks: every attempt fails with a
connection error. -/
def downOracle : Oracle := fun _ => UpstreamOutcome.netError "Connection refused"

/-- A static collaborator for concrete checks. -/
def plainStatic : StaticOracle := fun _ => (404, [], Option.some (Payload.text "not found"))

/-- An OPTIONS preflight on an arbitrary unrouted path. -/
def optionsInb : Inbound :=
  { method := Method.OPTIONS, path := "/anywhere", contentLength := Option.none,
    payload := LoadOutcome.err "no body" }

/-- An upstream that answers the gemini target 201 with Content-Type
text/plain, and the claude target 200 application/json with a payload that
is not valid UTF-8. -/
def c1Oracle : Oracle := fun req =>
  if req.url = geminiURL then UpstreamOutcome.success 201 "text/plain" [104, 105]
  else UpstreamOutcome.success 200 "application/json" [255]

def c1InbG : Inbound :=
  mkPost "/api/gemini" (Option.some "10") (LoadOutcome.ok (envDict "k" (PyVal.dict [])))

def c1InbC : Inbound :=
  mkPost "/api/claude" (Option.some "10") (LoadOutcome.ok (envDict "k" (PyVal.dict [])))

/-- An upstream answering every attempt 204 text/html with one byte. -/
def c1wOracle : Oracle := fun _ => UpstreamOutcome.success 204 "text/html" [104]

/-- A healthy upstream answering 200 application/json. -/
def c2Oracle : Oracle := fun _ => UpstreamOutcome.success 200 "application/json" [104, 105]

/-- A well-formed JSON envelope whose body field is absent, sent to the
claude path. -/
def c2Inb : Inbound :=
  mkPost "/api/claude" (Option.some "17") (LoadOutcome.ok (PyVal.dict [("apiKey", PyVal.str "k")]))

def c2wInb : Inbound :=
  mkPost "/api/claude" (Option.some "17") (LoadOutcome.ok (envDict "k" (PyVal.dict [])))

/-- An upstream answering every attempt with a 400 whose error body is not
valid UTF-8. -/
def c4Oracle : Oracle := fun _ => UpstreamOutcome.httpError 400 [255]

def c4Inb : Inbound :=
  mkPost "/api/claude" (Option.some "10") (LoadOutcome.ok (envDict "k" (PyVal.dict [])))

/-- An upstream answering every attempt with a 418 and a UTF-8 body. -/
def c4wOracle : Oracle := fun _ => UpstreamOutcome.httpError 418 [104, 105]

/-- An upstream that would answer 401, as for an unauthenticated call. -/
def c5Oracle : Oracle := fun _ => UpstreamOutcome.httpError 401 [101]

/-- A well-formed JSON envelope with no apiKey field, sent to the gemini
path. -/
def c5Inb : Inbound :=
  mkPost "/api/gemini" (Option.some "10") (LoadOutcome.ok (PyVal.dict [("body", PyVal.dict [])]))

/-- An upstream where every attempt times out. -/
def c9wOracle : Oracle := fun _ => UpstreamOutcome.netError "timed out"

def c8wInb : Inbound :=
  mkPost "/api/gemini" (Option.some "10") (LoadOutcome.ok (envDict "k" (PyVal.dict [])))

/-!
Theorems.  Helper lemmas evaluate the handler towers under hypotheses on
the envelope and the oracle; the claim theorems follow.
-/

theorem pyInt_valid (s : String) (h : isValidIntLiteral s = true) :
    pyInt (Option.some s) = Except.ok (parseIntLit s) := by
  simp [pyInt, h]

theorem envDict_apiKey (key : String) (bod : PyVal) :
    pyGet (envDict key bod) "apiKey" = Except.ok (PyVal.str key) := rfl

theorem envDict_body (key : String) (bod : PyVal) :
    pyGet (envDict key bod) "body" = Except.ok bod := rfl

theorem claudeReq_sendable (key : String) (bod : PyVal) :
    sendableHeaders (claudeReq (PyVal.str key) bod).headers = true := rfl

theorem geminiReq_sendable (key : String) (bod : PyVal) :
    sendableHeaders (geminiReq (PyVal.str key) bod).headers = true := rfl

theorem pyGet_localErr (v : PyVal) (k : String) (e : PyErr) (h : pyGet v k = Except.error e) :
    isLocalErr e = true := by
  cases v <;> simp_all [pyGet]
  all_goals subst h
  all_goals rfl

theorem pyGetD_localErr (v : PyVal) (k : String) (d : PyVal) (e : PyErr)
    (h : pyGetD v k d = Except.error e) : isLocalErr e = true := by
  cases v <;> simp_all [pyGetD]
  all_goals subst h
  all_goals rfl

theorem pyIndex0_localErr (v : PyVal) (e : PyErr) (h : pyIndex0 v = Except.error e) :
    isLocalErr e = true := by
  cases v with
  | str s => cases hs : s.data <;> simp_all [pyIndex0] <;> subst h <;> rfl
  | list xs => cases xs <;> simp_all [pyIndex0] <;> subst h <;> rfl
  | _ => simp_all [pyIndex0] <;> subst h <;> rfl

theorem claudeLog_localErr (k b : PyVal) (e : PyErr) (h : claudeLog k b = Except.error e) :
    isLocalErr e = true := by
  unfold claudeLog at h
  repeat' split at h
  all_goals try (cases h)
  all_goals simp_all [isLocalErr]
  all_goals first
    | exact pyGet_localErr _ _ _ (by assumption)
    | rfl

theorem geminiLog_localErr (b : PyVal) (e : PyErr) (h : geminiLog b = Except.error e) :
    isLocalErr e = true := by
  unfold geminiLog at h
  repeat' split at h
  all_goals try (cases h)
  all_goals simp_all [isLocalErr]
  all_goals first
    | exact pyGetD_localErr _ _ _ _ (by assumption)
    | exact pyIndex0_localErr _ _ (by assumption)
    | rfl

theorem urlopenM_calls (oracle : Oracle) (req : OutboundRequest) :
    (urlopenM oracle req).2 = [] ∨ (urlopenM oracle req).2 = [req] := by
  unfold urlopenM
  split
  · cases oracle req <;> simp
  · simp

theorem claudeCall_calls (oracle : Oracle) (k b : PyVal) :
    (claudeCall oracle k b).2 = [] ∨ (claudeCall oracle k b).2 = [claudeReq k b] := by
  unfold claudeCall urlopenM
  by_cases hs : sendableHeaders (claudeReq k b).headers
  · simp only [hs, if_true]
    rcases oracle (claudeReq k b) with ⟨st, ct, bs⟩ | ⟨c, bs⟩ | r
    · dsimp only
      split <;> simp
    · simp
    · simp
  · simp [hs]

theorem geminiCall_calls (oracle : Oracle) (k b : PyVal) :
    (geminiCall oracle k b).2 = [] ∨ (geminiCall oracle k b).2 = [geminiReq k b] := by
  unfold geminiCall urlopenM
  by_cases hs : sendableHeaders (geminiReq k b).headers
  · simp only [hs, if_true]
    rcases oracle (geminiReq k b) with ⟨st, ct, bs⟩ | ⟨c, bs⟩ | r <;> simp
  · simp [hs]

theorem claudeTry_calls (oracle : Oracle) (inb : Inbound) :
    (claudeTry oracle inb).2 = [] ∨
      ∃ k b, (claudeTry oracle inb).2 = [claudeReq k b] := by
  unfold claudeTry
  rcases pyInt inb.contentLength with e | n
  · exact Or.inl rfl
  · dsimp only
    rcases inb.payload with rd | m
    · dsimp only
      unfold claudeAfterParse
      rcases pyGet rd "apiKey" with e | k
      · exact Or.inl rfl
      · dsimp only
        rcases pyGet rd "body" with e | b
        · exact Or.inl rfl
        · dsimp only
          rcases claudeLog k b with e | u
          · exact Or.inl rfl
          · dsimp only
            rcases claudeCall_calls oracle k b with h | h
            · exact Or.inl h
            · exact Or.inr ⟨k, b, h⟩
    · exact Or.inl rfl

theorem geminiTry_calls (oracle : Oracle) (inb : Inbound) :
    (geminiTry oracle inb).2 = [] ∨
      ∃ k b, (geminiTry oracle inb).2 = [geminiReq k b] := by
  unfold geminiTry
  rcases pyInt inb.contentLength with e | n
  · exact Or.inl rfl
  · dsimp only
    rcases inb.payload with rd | m
    · dsimp only
      unfold geminiAfterParse
      rcases pyGet rd "apiKey" with e | k
      · exact Or.inl rfl
      · dsimp only
        rcases pyGet rd "body" with e | b
        · exact Or.inl rfl
        · dsimp only
          rcases geminiLog b with e | u
          · exact Or.inl rfl
          · dsimp only
            rcases geminiCall_calls oracle k b with h | h
            · exact Or.inl h
            · exact Or.inr ⟨k, b, h⟩
    · exact Or.inl rfl

theorem claudeRaw_calls (oracle : Oracle) (inb : Inbound) :
    (claudeRaw oracle inb).2 = (claudeTry oracle inb).2 := by
  unfold claudeRaw
  rcases claudeTry oracle inb with ⟨exc, calls⟩
  rcases exc with e | t
  · rcases e <;> try rfl
    dsimp only
    split <;> rfl
  · rfl

theorem geminiRaw_calls (oracle : Oracle) (inb : Inbound) :
    (geminiRaw oracle inb).2 = (geminiTry oracle inb).2 := by
  unfold geminiRaw
  rcases geminiTry oracle inb with ⟨exc, calls⟩
  rcases exc with e | t
  · rcases e <;> try rfl
    dsimp only
    split <;> rfl
  · rfl

/-- C3: a malformed inbound JSON body on either proxy path yields a local
500 whose body is the json.dumps error object with a message field, and no
outbound upstream attempt is issued.  The Content-Length string is
arbitrary: an invalid one only changes the message. -/
theorem C3_malformed_json_local_500 (oracle : Oracle) (cl : Option String) (m : String) :
    ((proxy_claude oracle (mkPost "/api/claude" cl (LoadOutcome.err m))).calls = [] ∧
      ∃ msg, (proxy_claude oracle (mkPost "/api/claude" cl (LoadOutcome.err m))).response
        = Option.some (localError500 msg)) ∧
    ((proxy_gemini oracle (mkPost "/api/gemini" cl (LoadOutcome.err m))).calls = [] ∧
      ∃ msg, (proxy_gemini oracle (mkPost "/api/gemini" cl (LoadOutcome.err m))).response
        = Option.some (localError500 msg)) := by
  rcases cl with _ | s
  · exact ⟨⟨rfl, ⟨intNoneMsg, rfl⟩⟩, ⟨rfl, ⟨intNoneMsg, rfl⟩⟩⟩
  · by_cases h : isValidIntLiteral s = true
    · refine ⟨⟨?_, ⟨m, ?_⟩⟩, ⟨?_, ⟨m, ?_⟩⟩⟩ <;>
        simp [proxy_claude, proxy_gemini, finish, claudeRaw, geminiRaw, claudeTry, geminiTry,
          mkPost, pyInt, h, localError500, mkResponseT, mkResponse, pyStr]
    · refine ⟨⟨?_, ⟨invalidLitMsg s, ?_⟩⟩, ⟨?_, ⟨invalidLitMsg s, ?_⟩⟩⟩ <;>
        simp [proxy_claude, proxy_gemini, finish, claudeRaw, geminiRaw, claudeTry, geminiTry,
          mkPost, pyInt, h, localError500, mkResponseT, mkResponse, pyStr]

/-- C6: an OPTIONS request on any path, whatever its headers or body,
receives a bare 200 carrying exactly the four CORS and cache headers and
no body, with no upstream attempt, before any routing logic runs. -/
theorem C6_options_preflight (oracle : Oracle) (staticO : StaticOracle)
    (p : String) (cl : Option String) (pl : LoadOutcome) :
    handle oracle staticO
        { method := Method.OPTIONS, path := p, contentLength := cl, payload := pl }
      = { response := Option.some (mkResponse 200 [] Option.none), calls := [] } ∧
    (mkResponse 200 [] Option.none).headers = corsHeaders ∧
    (mkResponse 200 [] Option.none).body = Option.none :=
  ⟨rfl, rfl, rfl⟩

/-- C7: every response the server emits, on every method and path (proxy,
preflight, static and error responses alike), carries the three CORS
headers and the cache-disabling header added by the overridden
end_headers. -/
theorem C7_cors_on_every_response (oracle : Oracle) (staticO : StaticOracle) (inb : Inbound)
    (r : Response) (hr : (handle oracle staticO inb).response = Option.some r) :
    ("Access-Control-Allow-Origin", "*") ∈ r.headers ∧
    ("Access-Control-Allow-Methods", "GET, POST, OPTIONS") ∈ r.headers ∧
    ("Access-Control-Allow-Headers", "Content-Type, x-api-key, x-goog-api-key") ∈ r.headers ∧
    ("Cache-Control", "no-store, no-cache, must-revalidate") ∈ r.headers := by
  have h : ∃ t, (handleRaw oracle staticO inb).1 = Option.some t ∧ mkResponseT t = r := by
    simpa [handle, finish, Option.map_eq_some'] using hr
  obtain ⟨t, -, rfl⟩ := h
  simp only [mkResponseT, mkResponse]
  refine ⟨?_, ?_, ?_, ?_⟩ <;>
    exact List.mem_append.mpr (Or.inr (by simp [corsHeaders]))

theorem C7_witness :
    ("Access-Control-Allow-Origin", "*") ∈ (mkResponse 200 [] Option.none).headers ∧
    ("Access-Control-Allow-Methods", "GET, POST, OPTIONS") ∈ (mkResponse 200 [] Option.none).headers ∧
    ("Access-Control-Allow-Headers", "Content-Type, x-api-key, x-goog-api-key") ∈ (mkResponse 200 [] Option.none).headers ∧
    ("Cache-Control", "no-store, no-cache, must-revalidate") ∈ (mkResponse 200 [] Option.none).headers :=
  C7_cors_on_every_response downOracle plainStatic optionsInb (mkResponse 200 [] Option.none) rfl

/-- C8: every outbound attempt the server ever issues goes to one of the
two fixed targets, with timeout 60 for the image target and no timeout
argument (the unbounded default) for the text target. -/
theorem C8_timeout_asymmetry (oracle : Oracle) (staticO : StaticOracle) (inb : Inbound)
    (req : OutboundRequest) (hreq : req ∈ (handle oracle staticO inb).calls) :
    (req.url = geminiURL ∧ req.timeout = Option.some 60) ∨
    (req.url = claudeURL ∧ req.timeout = Option.none) := by
  have hc : (handle oracle staticO inb).calls = (handleRaw oracle staticO inb).2 := rfl
  rw [hc] at hreq
  rcases inb with ⟨m, p, cl, pl⟩
  cases m with
  | OPTIONS => simp [handleRaw] at hreq
  | GET => simp [handleRaw] at hreq
  | POST =>
    by_cases hp : p = "/api/claude"
    · have h2 : (handleRaw oracle staticO ⟨Method.POST, p, cl, pl⟩).2
          = (claudeTry oracle ⟨Method.POST, p, cl, pl⟩).2 := by
        simp [handleRaw, hp, claudeRaw_calls]
      rw [h2] at hreq
      rcases claudeTry_calls oracle ⟨Method.POST, p, cl, pl⟩ with h | ⟨k, b, h⟩
      · rw [h] at hreq; cases hreq
      · rw [h] at hreq
        have heq : req = claudeReq k b := List.mem_singleton.mp hreq
        subst heq
        exact Or.inr ⟨rfl, rfl⟩
    · by_cases hg : p = "/api/gemini"
      · have h2 : (handleRaw oracle staticO ⟨Method.POST, p, cl, pl⟩).2
            = (geminiTry oracle ⟨Method.POST, p, cl, pl⟩).2 := by
          simp [handleRaw, hp, hg, geminiRaw_calls]
        rw [h2] at hreq
        rcases geminiTry_calls oracle ⟨Method.POST, p, cl, pl⟩ with h | ⟨k, b, h⟩
        · rw [h] at hreq; cases hreq
        · rw [h] at hreq
          have heq : req = geminiReq k b := List.mem_singleton.mp hreq
          subst heq
          exact Or.inl ⟨rfl, rfl⟩
      · simp [handleRaw, hp, hg] at hreq

theorem C8_witness :
    ((geminiReq (PyVal.str "k") (PyVal.dict [])).url = geminiURL ∧
      (geminiReq (PyVal.str "k") (PyVal.dict [])).timeout = Option.some 60) ∨
    ((geminiReq (PyVal.str "k") (PyVal.dict [])).url = claudeURL ∧
      (geminiReq (PyVal.str "k") (PyVal.dict [])).timeout = Option.none) :=
  C8_timeout_asymmetry downOracle plainStatic c8wInb (geminiReq (PyVal.str "k") (PyVal.dict []))
    (by rw [show (handle downOracle plainStatic c8wInb).calls
          = [geminiReq (PyVal.str "k") (PyVal.dict [])] from rfl]
        exact List.mem_singleton.mpr rfl)

theorem pyInt_localErr (cl : Option String) (e : PyErr) (h : pyInt cl = Except.error e) :
    isLocalErr e = true := by
  rcases cl with _ | s
  · simp_all [pyInt]
    subst h
    rfl
  · by_cases hv : isValidIntLiteral s = true <;> simp_all [pyInt]
    subst h
    rfl

theorem claudeTry_good (oracle : Oracle) (p cl key : String) (bod : PyVal)
    (hcl : isValidIntLiteral cl = true)
    (hlc : claudeLog (PyVal.str key) bod = Except.ok ()) :
    claudeTry oracle (mkPost p (Option.some cl) (LoadOutcome.ok (envDict key bod)))
      = claudeCall oracle (PyVal.str key) bod := by
  unfold claudeTry
  dsimp only [mkPost]
  rw [pyInt_valid cl hcl]
  dsimp only
  unfold claudeAfterParse
  rw [envDict_apiKey]
  dsimp only
  rw [envDict_body]
  dsimp only
  rw [hlc]

theorem geminiTry_good (oracle : Oracle) (p cl key : String) (bod : PyVal)
    (hcl : isValidIntLiteral cl = true)
    (hlg : geminiLog bod = Except.ok ()) :
    geminiTry oracle (mkPost p (Option.some cl) (LoadOutcome.ok (envDict key bod)))
      = geminiCall oracle (PyVal.str key) bod := by
  unfold geminiTry
  dsimp only [mkPost]
  rw [pyInt_valid cl hcl]
  dsimp only
  unfold geminiAfterParse
  rw [envDict_apiKey]
  dsimp only
  rw [envDict_body]
  dsimp only
  rw [hlg]

theorem claudeCall_success (oracle : Oracle) (key : String) (bod : PyVal) (st : Nat)
    (ct : String) (b : List Nat)
    (hoc : oracle (claudeReq (PyVal.str key) bod) = UpstreamOutcome.success st ct b)
    (hutf : utf8Valid b = true) :
    claudeCall oracle (PyVal.str key) bod
      = (Except.ok (200,
          [("Content-Type", "application/json"), ("Content-Length", toString b.length)],
          Option.some (Payload.bytes b)), [claudeReq (PyVal.str key) bod]) := by
  unfold claudeCall urlopenM
  rw [if_pos (claudeReq_sendable key bod)]
  rw [hoc]
  dsimp only
  rw [if_pos hutf]

theorem claudeCall_http (oracle : Oracle) (key : String) (bod : PyVal) (c : Nat) (b : List Nat)
    (hoc : oracle (claudeReq (PyVal.str key) bod) = UpstreamOutcome.httpError c b) :
    claudeCall oracle (PyVal.str key) bod
      = (Except.error (PyErr.httpError c b), [claudeReq (PyVal.str key) bod]) := by
  unfold claudeCall urlopenM
  rw [if_pos (claudeReq_sendable key bod)]
  rw [hoc]

theorem claudeCall_net (oracle : Oracle) (key : String) (bod : PyVal) (r : String)
    (hoc : oracle (claudeReq (PyVal.str key) bod) = UpstreamOutcome.netError r) :
    claudeCall oracle (PyVal.str key) bod
      = (Except.error (PyErr.urlError r), [claudeReq (PyVal.str key) bod]) := by
  unfold claudeCall urlopenM
  rw [if_pos (claudeReq_sendable key bod)]
  rw [hoc]

theorem geminiCall_success (oracle : Oracle) (key : String) (bod : PyVal) (st : Nat)
    (ct : String) (b : List Nat)
    (hog : oracle (geminiReq (PyVal.str key) bod) = UpstreamOutcome.success st ct b) :
    geminiCall oracle (PyVal.str key) bod
      = (Except.ok (200, [("Content-Type", "application/json")],
          Option.some (Payload.bytes b)), [geminiReq (PyVal.str key) bod]) := by
  unfold geminiCall urlopenM
  rw [if_pos (geminiReq_sendable key bod)]
  rw [hog]

theorem geminiCall_http (oracle : Oracle) (key : String) (bod : PyVal) (c : Nat) (b : List Nat)
    (hog : oracle (geminiReq (PyVal.str key) bod) = UpstreamOutcome.httpError c b) :
    geminiCall oracle (PyVal.str key) bod
      = (Except.error (PyErr.httpError c b), [geminiReq (PyVal.str key) bod]) := by
  unfold geminiCall urlopenM
  rw [if_pos (geminiReq_sendable key bod)]
  rw [hog]

theorem geminiCall_net (oracle : Oracle) (key : String) (bod : PyVal) (r : String)
    (hog : oracle (geminiReq (PyVal.str key) bod) = UpstreamOutcome.netError r) :
    geminiCall oracle (PyVal.str key) bod
      = (Except.error (PyErr.urlError r), [geminiReq (PyVal.str key) bod]) := by
  unfold geminiCall urlopenM
  rw [if_pos (geminiReq_sendable key bod)]
  rw [hog]

theorem claudeRaw_success (oracle : Oracle) (p cl key : String) (bod : PyVal) (st : Nat)
    (ct : String) (b : List Nat)
    (hcl : isValidIntLiteral cl = true)
    (hlc : claudeLog (PyVal.str key) bod = Except.ok ())
    (hoc : oracle (claudeReq (PyVal.str key) bod) = UpstreamOutcome.success st ct b)
    (hutf : utf8Valid b = true) :
    claudeRaw oracle (mkPost p (Option.some cl) (LoadOutcome.ok (envDict key bod)))
      = (Option.some (200,
          [("Content-Type", "application/json"), ("Content-Length", toString b.length)],
          Option.some (Payload.bytes b)), [claudeReq (PyVal.str key) bod]) := by
  unfold claudeRaw
  rw [claudeTry_good oracle p cl key bod hcl hlc,
    claudeCall_success oracle key bod st ct b hoc hutf]

theorem claudeRaw_http (oracle : Oracle) (p cl key : String) (bod : PyVal) (c : Nat)
    (b : List Nat)
    (hcl : isValidIntLiteral cl = true)
    (hlc : claudeLog (PyVal.str key) bod = Except.ok ())
    (hoc : oracle (claudeReq (PyVal.str key) bod) = UpstreamOutcome.httpError c b)
    (hutf : utf8Valid b = true) :
    claudeRaw oracle (mkPost p (Option.some cl) (LoadOutcome.ok (envDict key bod)))
      = (Option.some (c,
          [("Content-Type", "application/json"), ("Content-Length", toString b.length)],
          Option.some (Payload.bytes b)), [claudeReq (PyVal.str key) bod]) := by
  unfold claudeRaw
  rw [claudeTry_good oracle p cl key bod hcl hlc, claudeCall_http oracle key bod c b hoc]
  dsimp only
  rw [if_pos hutf]

theorem claudeRaw_net (oracle : Oracle) (p cl key : String) (bod : PyVal) (r : String)
    (hcl : isValidIntLiteral cl = true)
    (hlc : claudeLog (PyVal.str key) bod = Except.ok ())
    (hoc : oracle (claudeReq (PyVal.str key) bod) = UpstreamOutcome.netError r) :
    claudeRaw oracle (mkPost p (Option.some cl) (LoadOutcome.ok (envDict key bod)))
      = (Option.some (500, [("Content-Type", "application/json")],
          Option.some (Payload.text (dumps (errObj ("<urlopen error " ++ r ++ ">"))))),
         [claudeReq (PyVal.str key) bod]) := by
  unfold claudeRaw
  rw [claudeTry_good oracle p cl key bod hcl hlc, claudeCall_net oracle key bod r hoc]
  rfl

theorem geminiRaw_success (oracle : Oracle) (p cl key : String) (bod : PyVal) (st : Nat)
    (ct : String) (b : List Nat)
    (hcl : isValidIntLiteral cl = true)
    (hlg : geminiLog bod = Except.ok ())
    (hog : oracle (geminiReq (PyVal.str key) bod) = UpstreamOutcome.success st ct b) :
    geminiRaw oracle (mkPost p (Option.some cl) (LoadOutcome.ok (envDict key bod)))
      = (Option.some (200, [("Content-Type", "application/json")],
          Option.some (Payload.bytes b)), [geminiReq (PyVal.str key) bod]) := by
  unfold geminiRaw
  rw [geminiTry_good oracle p cl key bod hcl hlg,
    geminiCall_success oracle key bod st ct b hog]

theorem geminiRaw_http (oracle : Oracle) (p cl key : String) (bod : PyVal) (c : Nat)
    (b : List Nat)
    (hcl : isValidIntLiteral cl = true)
    (hlg : geminiLog bod = Except.ok ())
    (hog : oracle (geminiReq (PyVal.str key) bod) = UpstreamOutcome.httpError c b)
    (hutf : utf8Valid b = true) :
    geminiRaw oracle (mkPost p (Option.some cl) (LoadOutcome.ok (envDict key bod)))
      = (Option.some (c, [("Content-Type", "application/json")],
          Option.some (Payload.bytes b)), [geminiReq (PyVal.str key) bod]) := by
  unfold geminiRaw
  rw [geminiTry_good oracle p cl key bod hcl hlg, geminiCall_http oracle key bod c b hog]
  dsimp only
  rw [if_pos hutf]

theorem geminiRaw_net (oracle : Oracle) (p cl key : String) (bod : PyVal) (r : String)
    (hcl : isValidIntLiteral cl = true)
    (hlg : geminiLog bod = Except.ok ())
    (hog : oracle (geminiReq (PyVal.str key) bod) = UpstreamOutcome.netError r) :
    geminiRaw oracle (mkPost p (Option.some cl) (LoadOutcome.ok (envDict key bod)))
      = (Option.some (500, [("Content-Type", "application/json")],
          Option.some (Payload.text (dumps (errObj ("Network error: " ++ r))))),
         [geminiReq (PyVal.str key) bod]) := by
  unfold geminiRaw
  rw [geminiTry_good oracle p cl key bod hcl hlg, geminiCall_net oracle key bod r hog]

/-- C1 is refuted on two counts at concrete inputs.  First, the gemini
upstream answers 201 with Content-Type text/plain, yet the caller receives
status 200 and Content-Type application/json: the handlers hardcode both
(server.py lines 199 to 200 and 122 to 123) instead of echoing the
upstream values.  Second, on the claude path a successful upstream payload
that is not valid UTF-8 is not forwarded at all: the diagnostic decode at
line 85 raises and the generic clause sends a local 500. -/
theorem C1_counterexample :
    c1Oracle (geminiReq (PyVal.str "k") (PyVal.dict []))
      = UpstreamOutcome.success 201 "text/plain" [104, 105] ∧
    (proxy_gemini c1Oracle c1InbG).response
      = Option.some (mkResponse 200 [("Content-Type", "application/json")]
          (Option.some (Payload.bytes [104, 105]))) ∧
    (200 : Nat) ≠ 201 ∧
    ("application/json" : String) ≠ "text/plain" ∧
    c1Oracle (claudeReq (PyVal.str "k") (PyVal.dict []))
      = UpstreamOutcome.success 200 "application/json" [255] ∧
    (proxy_claude c1Oracle c1InbC).response
      = Option.some (localError500 "utf-8 codec cannot decode byte") ∧
    (localError500 "utf-8 codec cannot decode byte").body
      ≠ Option.some (Payload.bytes [255]) :=
  ⟨rfl, rfl, by decide, by decide, rfl, rfl, by decide⟩

/-- C1 (amended): for an envelope that parses, passes the request logging,
and a successful upstream call, the caller receives status 200 and
Content-Type application/json regardless of the status and Content-Type
the upstream returned, with the body forwarded byte-identically; on the
claude path this requires the payload to decode as UTF-8.  Exactly one
upstream attempt is issued. -/
theorem C1_round_trip_amended (oracle : Oracle) (cl key : String) (bod : PyVal)
    (st : Nat) (ct : String) (b : List Nat)
    (hcl : isValidIntLiteral cl = true)
    (hlc : claudeLog (PyVal.str key) bod = Except.ok ())
    (hlg : geminiLog bod = Except.ok ())
    (hoc : oracle (claudeReq (PyVal.str key) bod) = UpstreamOutcome.success st ct b)
    (hog : oracle (geminiReq (PyVal.str key) bod) = UpstreamOutcome.success st ct b)
    (hutf : utf8Valid b = true) :
    proxy_claude oracle (mkPost "/api/claude" (Option.some cl) (LoadOutcome.ok (envDict key bod)))
      = { response := Option.some (mkResponse 200
            [("Content-Type", "application/json"), ("Content-Length", toString b.length)]
            (Option.some (Payload.bytes b)))
          calls := [claudeReq (PyVal.str key) bod] } ∧
    proxy_gemini oracle (mkPost "/api/gemini" (Option.some cl) (LoadOutcome.ok (envDict key bod)))
      = { response := Option.some (mkResponse 200 [("Content-Type", "application/json")]
            (Option.some (Payload.bytes b)))
          calls := [geminiReq (PyVal.str key) bod] } := by
  constructor
  · unfold proxy_claude
    rw [claudeRaw_success oracle "/api/claude" cl key bod st ct b hcl hlc hoc hutf]
    rfl
  · unfold proxy_gemini
    rw [geminiRaw_success oracle "/api/gemini" cl key bod st ct b hcl hlg hog]
    rfl

theorem C1_witness :
    proxy_gemini c1wOracle (mkPost "/api/gemini" (Option.some "5")
        (LoadOutcome.ok (envDict "k" (PyVal.dict []))))
      = { response := Option.some (mkResponse 200 [("Content-Type", "application/json")]
            (Option.some (Payload.bytes [104])))
          calls := [geminiReq (PyVal.str "k") (PyVal.dict [])] } :=
  (C1_round_trip_amended c1wOracle "5" "k" (PyVal.dict []) 204 "text/html" [104]
    (by decide) rfl rfl rfl rfl (by decide)).2

/-- C4 is refuted at a concrete input: an upstream 400 whose error body is
the single byte 255 is not forwarded; the decode of the error body inside
the except HTTPError clause (server.py lines 131 and 207) raises
UnicodeDecodeError, no later clause catches it, and the connection is
closed with no response at all. -/
theorem C4_counterexample :
    c4Oracle (claudeReq (PyVal.str "k") (PyVal.dict []))
      = UpstreamOutcome.httpError 400 [255] ∧
    (proxy_claude c4Oracle c4Inb).response = Option.none ∧
    (proxy_gemini c4Oracle (mkPost "/api/gemini" (Option.some "10")
        (LoadOutcome.ok (envDict "k" (PyVal.dict []))))).response = Option.none :=
  ⟨rfl, rfl, rfl⟩

/-- C4 (amended): for an upstream non-2xx response whose error body
decodes as UTF-8, the caller receives exactly the upstream status code and
the error body byte-for-byte, on both proxy paths; a non-UTF-8 error body
instead kills the handler and no response is sent. -/
theorem C4_upstream_error_forwarded_amended (oracle : Oracle) (cl key : String) (bod : PyVal)
    (c : Nat) (b : List Nat)
    (hcl : isValidIntLiteral cl = true)
    (hlc : claudeLog (PyVal.str key) bod = Except.ok ())
    (hlg : geminiLog bod = Except.ok ())
    (hoc : oracle (claudeReq (PyVal.str key) bod) = UpstreamOutcome.httpError c b)
    (hog : oracle (geminiReq (PyVal.str key) bod) = UpstreamOutcome.httpError c b)
    (hutf : utf8Valid b = true) :
    proxy_claude oracle (mkPost "/api/claude" (Option.some cl) (LoadOutcome.ok (envDict key bod)))
      = { response := Option.some (mkResponse c
            [("Content-Type", "application/json"), ("Content-Length", toString b.length)]
            (Option.some (Payload.bytes b)))
          calls := [claudeReq (PyVal.str key) bod] } ∧
    proxy_gemini oracle (mkPost "/api/gemini" (Option.some cl) (LoadOutcome.ok (envDict key bod)))
      = { response := Option.some (mkResponse c [("Content-Type", "application/json")]
            (Option.some (Payload.bytes b)))
          calls := [geminiReq (PyVal.str key) bod] } := by
  constructor
  · unfold proxy_claude
    rw [claudeRaw_http oracle "/api/claude" cl key bod c b hcl hlc hoc hutf]
    rfl
  · unfold proxy_gemini
    rw [geminiRaw_http oracle "/api/gemini" cl key bod c b hcl hlg hog hutf]
    rfl

theorem C4_witness :
    proxy_claude c4wOracle (mkPost "/api/claude" (Option.some "5")
        (LoadOutcome.ok (envDict "k" (PyVal.dict []))))
      = { response := Option.some (mkResponse 418
            [("Content-Type", "application/json"), ("Content-Length", "2")]
            (Option.some (Payload.bytes [104, 105])))
          calls := [claudeReq (PyVal.str "k") (PyVal.dict [])] } :=
  (C4_upstream_error_forwarded_amended c4wOracle "5" "k" (PyVal.dict []) 418 [104, 105]
    (by decide) rfl rfl rfl rfl (by decide)).1

/-- C9: a network failure of the upstream attempt (URLError: timeout, DNS
failure, connection reset) yields a synthesized local 500 whose body is
the json.dumps error object with a message naming the failure reason, and
exactly one upstream attempt is issued, never a second one.  On the claude
path the message is the str form of the URLError caught by the generic
clause; on the gemini path the dedicated URLError clause prefixes Network
error. -/
theorem C9_network_error_500 (oracle : Oracle) (cl key : String) (bod : PyVal) (r : String)
    (hcl : isValidIntLiteral cl = true)
    (hlc : claudeLog (PyVal.str key) bod = Except.ok ())
    (hlg : geminiLog bod = Except.ok ())
    (hoc : oracle (claudeReq (PyVal.str key) bod) = UpstreamOutcome.netError r)
    (hog : oracle (geminiReq (PyVal.str key) bod) = UpstreamOutcome.netError r) :
    proxy_claude oracle (mkPost "/api/claude" (Option.some cl) (LoadOutcome.ok (envDict key bod)))
      = { response := Option.some (localError500 ("<urlopen error " ++ r ++ ">"))
          calls := [claudeReq (PyVal.str key) bod] } ∧
    proxy_gemini oracle (mkPost "/api/gemini" (Option.some cl) (LoadOutcome.ok (envDict key bod)))
      = { response := Option.some (localError500 ("Network error: " ++ r))
          calls := [geminiReq (PyVal.str key) bod] } := by
  constructor
  · unfold proxy_claude
    rw [claudeRaw_net oracle "/api/claude" cl key bod r hcl hlc hoc]
    rfl
  · unfold proxy_gemini
    rw [geminiRaw_net oracle "/api/gemini" cl key bod r hcl hlg hog]
    rfl

theorem C9_witness :
    proxy_gemini c9wOracle (mkPost "/api/gemini" (Option.some "5")
        (LoadOutcome.ok (envDict "k" (PyVal.dict []))))
      = { response := Option.some (localError500 "Network error: timed out")
          calls := [geminiReq (PyVal.str "k") (PyVal.dict [])] } :=
  (C9_network_error_500 c9wOracle "5" "k" (PyVal.dict []) "timed out"
    (by decide) rfl rfl rfl rfl).2

/-- C10: an inbound proxy POST with no Content-Length header makes int of
None raise TypeError, and a non-integer value makes it raise ValueError;
either way the generic clause answers a local 500 with the json.dumps
error object and no upstream attempt is issued, on both paths, whatever
the request body holds. -/
theorem C10_bad_content_length (oracle : Oracle) (pl : LoadOutcome) (s : String)
    (hs : isValidIntLiteral s = false) :
    ((proxy_claude oracle (mkPost "/api/claude" Option.none pl)).calls = [] ∧
      (proxy_claude oracle (mkPost "/api/claude" Option.none pl)).response
        = Option.some (localError500 intNoneMsg)) ∧
    ((proxy_gemini oracle (mkPost "/api/gemini" Option.none pl)).calls = [] ∧
      (proxy_gemini oracle (mkPost "/api/gemini" Option.none pl)).response
        = Option.some (localError500 intNoneMsg)) ∧
    ((proxy_claude oracle (mkPost "/api/claude" (Option.some s) pl)).calls = [] ∧
      (proxy_claude oracle (mkPost "/api/claude" (Option.some s) pl)).response
        = Option.some (localError500 (invalidLitMsg s))) ∧
    ((proxy_gemini oracle (mkPost "/api/gemini" (Option.some s) pl)).calls = [] ∧
      (proxy_gemini oracle (mkPost "/api/gemini" (Option.some s) pl)).response
        = Option.some (localError500 (invalidLitMsg s))) := by
  have hint : pyInt (Option.some s) = Except.error (PyErr.valueError (invalidLitMsg s)) := by
    simp [pyInt, hs]
  have hcr : claudeRaw oracle (mkPost "/api/claude" (Option.some s) pl)
      = (Option.some (500, [("Content-Type", "application/json")],
          Option.some (Payload.text (dumps (errObj (invalidLitMsg s))))), []) := by
    unfold claudeRaw claudeTry
    dsimp only [mkPost]
    rw [hint]
    rfl
  have hgr : geminiRaw oracle (mkPost "/api/gemini" (Option.some s) pl)
      = (Option.some (500, [("Content-Type", "application/json")],
          Option.some (Payload.text (dumps (errObj (invalidLitMsg s))))), []) := by
    unfold geminiRaw geminiTry
    dsimp only [mkPost]
    rw [hint]
    rfl
  refine ⟨⟨rfl, rfl⟩, ⟨rfl, rfl⟩, ⟨?_, ?_⟩, ⟨?_, ?_⟩⟩
  · unfold proxy_claude
    rw [hcr]
    rfl
  · unfold proxy_claude
    rw [hcr]
    rfl
  · unfold proxy_gemini
    rw [hgr]
    rfl
  · unfold proxy_gemini
    rw [hgr]
    rfl

theorem C10_witness :
    (proxy_claude downOracle (mkPost "/api/claude" (Option.some "abc")
        (LoadOutcome.ok (envDict "k" (PyVal.dict []))))).response
      = Option.some (localError500 (invalidLitMsg "abc")) :=
  (C10_bad_content_length downOracle (LoadOutcome.ok (envDict "k" (PyVal.dict []))) "abc"
    (by decide)).2.2.1.2

theorem urlopenM_sendable_eq (oracle : Oracle) (req : OutboundRequest)
    (hs : sendableHeaders req.headers = true) :
    urlopenM oracle req
      = (match oracle req with
         | UpstreamOutcome.success st ct b => (Except.ok (st, ct, b), [req])
         | UpstreamOutcome.httpError c b => (Except.error (PyErr.httpError c b), [req])
         | UpstreamOutcome.netError r => (Except.error (PyErr.urlError r), [req])) := by
  unfold urlopenM
  rw [if_pos hs]

theorem urlopenM_unsendable (oracle : Oracle) (req : OutboundRequest)
    (hs : ¬ sendableHeaders req.headers = true) :
    urlopenM oracle req
      = (Except.error (PyErr.typeError "expected string or bytes-like object"), []) := by
  unfold urlopenM
  rw [if_neg hs]

/-- C2 is refuted at a concrete input: for the well-formed JSON envelope
that lacks its body field, the unguarded request-parameter logging
(server.py line 65, body.get on None) raises AttributeError before the
upstream call; the caller gets a local 500 and no upstream attempt is
made, while the identical handler with the diagnostics removed would issue
the call and forward the healthy upstream 200 response. -/
theorem C2_counterexample :
    (proxy_claude c2Oracle c2Inb).calls = [] ∧
    (proxy_claude c2Oracle c2Inb).response
      = Option.some (localError500 "NoneType object has no attribute get") ∧
    (proxy_claude_noLog c2Oracle c2Inb).calls = [claudeReq (PyVal.str "k") PyVal.none] ∧
    (proxy_claude_noLog c2Oracle c2Inb).response
      = Option.some (mkResponse 200
          [("Content-Type", "application/json"), ("Content-Length", "2")]
          (Option.some (Payload.bytes [104, 105]))) ∧
    (proxy_claude c2Oracle c2Inb).response ≠ (proxy_claude_noLog c2Oracle c2Inb).response := by
  refine ⟨rfl, rfl, rfl, rfl, ?_⟩
  rw [show (proxy_claude c2Oracle c2Inb).response
      = Option.some (localError500 "NoneType object has no attribute get") from rfl,
    show (proxy_claude_noLog c2Oracle c2Inb).response
      = Option.some (mkResponse 200
          [("Content-Type", "application/json"), ("Content-Length", "2")]
          (Option.some (Payload.bytes [104, 105]))) from rfl]
  decide

/-- C2 (amended): the guarded response-inspection diagnostics never change
the response, and on both proxy paths the whole diagnostic layer is
transparent exactly when the unguarded steps cannot raise: if the
request-side logging (claudeLog, geminiLog) succeeds on the extracted
envelope and every upstream payload the handler decodes for preview (the
claude success payload, and the HTTPError body on either path) is valid
UTF-8, then each handler result equals that of the same handler with the
diagnostics removed.  When one of those steps raises, the response changes
(a local 500 replaces the forwarded response, or the connection dies), as
the counterexample shows. -/
theorem C2_logging_transparent_amended (oracle : Oracle) (inb : Inbound)
    (hlogC : ∀ k b, envelopeOf inb = Option.some (k, b) → claudeLog k b = Except.ok ())
    (hlogG : ∀ k b, envelopeOf inb = Option.some (k, b) → geminiLog b = Except.ok ())
    (hsuccC : ∀ k b st ct bs, envelopeOf inb = Option.some (k, b) →
      oracle (claudeReq k b) = UpstreamOutcome.success st ct bs → utf8Valid bs = true)
    (herrC : ∀ k b c bs, envelopeOf inb = Option.some (k, b) →
      oracle (claudeReq k b) = UpstreamOutcome.httpError c bs → utf8Valid bs = true)
    (herrG : ∀ k b c bs, envelopeOf inb = Option.some (k, b) →
      oracle (geminiReq k b) = UpstreamOutcome.httpError c bs → utf8Valid bs = true) :
    proxy_claude oracle inb = proxy_claude_noLog oracle inb ∧
    proxy_gemini oracle inb = proxy_gemini_noLog oracle inb := by
  constructor
  · unfold proxy_claude proxy_claude_noLog claudeRaw claudeRawNoLog claudeTry claudeTryNoLog
    rcases hint : pyInt inb.contentLength with e | n
    · have hloc := pyInt_localErr _ e hint
      rcases e <;> first | rfl | (simp [isLocalErr] at hloc)
    · rcases hpl : inb.payload with rd | m
      · dsimp only
        unfold claudeAfterParse claudeAfterParseNoLog
        rcases hk : pyGet rd "apiKey" with e | k
        · have hloc := pyGet_localErr _ _ _ hk
          rcases e <;> first | rfl | (simp [isLocalErr] at hloc)
        · dsimp only
          rcases hb : pyGet rd "body" with e | b
          · have hloc := pyGet_localErr _ _ _ hb
            rcases e <;> first | rfl | (simp [isLocalErr] at hloc)
          · dsimp only
            have henv : envelopeOf inb = Option.some (k, b) := by
              unfold envelopeOf
              rw [hint]
              dsimp only
              rw [hpl]
              dsimp only
              rw [hk, hb]
            rw [hlogC k b henv]
            dsimp only
            unfold claudeCall claudeCallNoLog
            by_cases hs : sendableHeaders (claudeReq k b).headers = true
            · rw [urlopenM_sendable_eq oracle _ hs]
              rcases ho : oracle (claudeReq k b) with ⟨st, ct, bs⟩ | ⟨c, bs⟩ | r
              · dsimp only
                rw [if_pos (hsuccC k b st ct bs henv ho)]
              · dsimp only
                rw [if_pos (herrC k b c bs henv ho)]
              · rfl
            · rw [urlopenM_unsendable oracle _ hs]
      · rfl
  · unfold proxy_gemini proxy_gemini_noLog geminiRaw geminiRawNoLog geminiTry geminiTryNoLog
    rcases hint : pyInt inb.contentLength with e | n
    · have hloc := pyInt_localErr _ e hint
      rcases e <;> first | rfl | (simp [isLocalErr] at hloc)
    · rcases hpl : inb.payload with rd | m
      · dsimp only
        unfold geminiAfterParse geminiAfterParseNoLog
        rcases hk : pyGet rd "apiKey" with e | k
        · have hloc := pyGet_localErr _ _ _ hk
          rcases e <;> first | rfl | (simp [isLocalErr] at hloc)
        · dsimp only
          rcases hb : pyGet rd "body" with e | b
          · have hloc := pyGet_localErr _ _ _ hb
            rcases e <;> first | rfl | (simp [isLocalErr] at hloc)
          · dsimp only
            have henv : envelopeOf inb = Option.some (k, b) := by
              unfold envelopeOf
              rw [hint]
              dsimp only
              rw [hpl]
              dsimp only
              rw [hk, hb]
            rw [hlogG k b henv]
            dsimp only
            unfold geminiCall
            by_cases hs : sendableHeaders (geminiReq k b).headers = true
            · rw [urlopenM_sendable_eq oracle _ hs]
              rcases ho : oracle (geminiReq k b) with ⟨st, ct, bs⟩ | ⟨c, bs⟩ | r
              · rfl
              · dsimp only
                rw [if_pos (herrG k b c bs henv ho)]
              · rfl
            · rw [urlopenM_unsendable oracle _ hs]
      · rfl

theorem C2_witness :
    proxy_claude downOracle c2wInb = proxy_claude_noLog downOracle c2wInb ∧
    proxy_gemini downOracle c2wInb = proxy_gemini_noLog downOracle c2wInb :=
  C2_logging_transparent_amended downOracle c2wInb
    (fun k b h => by
      rw [show envelopeOf c2wInb = Option.some (PyVal.str "k", PyVal.dict []) from rfl] at h
      injection h with h2
      have hk := congrArg Prod.fst h2
      have hb := congrArg Prod.snd h2
      dsimp at hk hb
      subst hk
      subst hb
      rfl)
    (fun k b h => by
      rw [show envelopeOf c2wInb = Option.some (PyVal.str "k", PyVal.dict []) from rfl] at h
      injection h with h2
      have hb := congrArg Prod.snd h2
      dsimp at hb
      subst hb
      rfl)
    (fun k b st ct bs h ho => by simp [downOracle] at ho)
    (fun k b c bs h ho => by simp [downOracle] at ho)
    (fun k b c bs h ho => by simp [downOracle] at ho)

/-- C5 is refuted at a concrete input: the well-formed gemini envelope
with no apiKey field never reaches the upstream (calls is empty), because
request_data.get returns None and http.client raises TypeError on the None
header value inside urlopen, before any bytes are sent; the caller
receives a local 500, not the upstream 401 the oracle would have
answered. -/
theorem C5_counterexample :
    c5Oracle (geminiReq PyVal.none (PyVal.dict []))
      = UpstreamOutcome.httpError 401 [101] ∧
    (proxy_gemini c5Oracle c5Inb).calls = [] ∧
    (proxy_gemini c5Oracle c5Inb).response
      = Option.some (localError500 "expected string or bytes-like object") ∧
    (localError500 "expected string or bytes-like object").status ≠ 401 :=
  ⟨rfl, rfl, rfl, by decide⟩

/-- C5 (amended): a well-formed JSON gemini envelope with no apiKey field
is indeed not pre-validated, but the attempt dies locally: either the
prompt-preview logging raises on the malformed body, or header
construction inside urlopen raises TypeError on the None key; in every
case the caller receives a local 500 error object and zero upstream
attempts are issued, so no upstream 401 is ever forwarded. -/
theorem C5_missing_apiKey_local_500 (oracle : Oracle) (cl : String)
    (kvs : List (String × PyVal))
    (hcl : isValidIntLiteral cl = true)
    (hk : kvs.lookup "apiKey" = Option.none) :
    (proxy_gemini oracle (mkPost "/api/gemini" (Option.some cl)
        (LoadOutcome.ok (PyVal.dict kvs)))).calls = [] ∧
    ∃ msg, (proxy_gemini oracle (mkPost "/api/gemini" (Option.some cl)
        (LoadOutcome.ok (PyVal.dict kvs)))).response = Option.some (localError500 msg) := by
  have hget : pyGet (PyVal.dict kvs) "apiKey" = Except.ok PyVal.none := by
    simp [pyGet, hk]
  rcases hlog : geminiLog ((kvs.lookup "body").getD PyVal.none) with e | u
  · have htry : geminiTry oracle (mkPost "/api/gemini" (Option.some cl)
        (LoadOutcome.ok (PyVal.dict kvs))) = (Except.error e, []) := by
      unfold geminiTry
      dsimp only [mkPost]
      rw [pyInt_valid cl hcl]
      dsimp only
      unfold geminiAfterParse
      rw [hget]
      dsimp only
      rw [show pyGet (PyVal.dict kvs) "body"
          = Except.ok ((kvs.lookup "body").getD PyVal.none) from rfl]
      dsimp only
      rw [hlog]
    have hloc := geminiLog_localErr _ e hlog
    have hraw : geminiRaw oracle (mkPost "/api/gemini" (Option.some cl)
        (LoadOutcome.ok (PyVal.dict kvs)))
        = (Option.some (500, [("Content-Type", "application/json")],
            Option.some (Payload.text (dumps (errObj (pyStr e))))), []) := by
      unfold geminiRaw
      rw [htry]
      rcases e <;> first | rfl | (simp [isLocalErr] at hloc)
    refine ⟨?_, ⟨pyStr e, ?_⟩⟩
    · unfold proxy_gemini
      rw [hraw]
      rfl
    · unfold proxy_gemini
      rw [hraw]
      rfl
  · have htry : geminiTry oracle (mkPost "/api/gemini" (Option.some cl)
        (LoadOutcome.ok (PyVal.dict kvs)))
        = (Except.error (PyErr.typeError "expected string or bytes-like object"), []) := by
      unfold geminiTry
      dsimp only [mkPost]
      rw [pyInt_valid cl hcl]
      dsimp only
      unfold geminiAfterParse
      rw [hget]
      dsimp only
      rw [show pyGet (PyVal.dict kvs) "body"
          = Except.ok ((kvs.lookup "body").getD PyVal.none) from rfl]
      dsimp only
      rw [hlog]
      dsimp only
      unfold geminiCall
      rw [urlopenM_unsendable oracle _ (by
        rw [show sendableHeaders (geminiReq PyVal.none
            ((kvs.lookup "body").getD PyVal.none)).headers = false from rfl]
        exact Bool.false_ne_true)]
    have hraw : geminiRaw oracle (mkPost "/api/gemini" (Option.some cl)
        (LoadOutcome.ok (PyVal.dict kvs)))
        = (Option.some (500, [("Content-Type", "application/json")],
            Option.some (Payload.text (dumps (errObj
              "expected string or bytes-like object")))), []) := by
      unfold geminiRaw
      rw [htry]
      rfl
    refine ⟨?_, ⟨"expected string or bytes-like object", ?_⟩⟩
    · unfold proxy_gemini
      rw [hraw]
      rfl
    · unfold proxy_gemini
      rw [hraw]
      rfl

theorem C5_witness :
    (proxy_gemini c5Oracle (mkPost "/api/gemini" (Option.some "10")
        (LoadOutcome.ok (PyVal.dict [("body", PyVal.dict [])])))).calls = [] :=
  (C5_missing_apiKey_local_500 c5Oracle "10" [("body", PyVal.dict [])]
    (by decide) rfl).1

end Server
